import Mathlib

/-!
Shallow embedding of the HSDP connector (`src/connector/hsdp/hsdp.go`) of
dip-software/dex: the multi-protocol authentication dispatcher and
identity-reconciliation pipeline.

External collaborators (the OIDC provider's userinfo endpoint, the token
introspection endpoint, the profile lookup, the OAuth2 code exchange, the
SAML2 bearer-assertion HTTP exchange and the refresh-token redemption) are
modelled as oracle values passed in explicitly: each oracle value is the
result the corresponding upstream call would return during the resolution
under study.  The connector's own logic — branching, claim reconciliation,
policy checks, session-blob assembly — is translated from the source.

Go's `json.Marshal` of `ConnectorData` cannot fail (every field of the
struct is marshalable), so serialization of the session blob is modelled by
the structure itself; deserialization (`json.Unmarshal` in `Refresh`) is
modelled by `Option ConnectorData`, where `none` stands for bytes that do
not unmarshal (including the nil byte slice of a fresh identity).
-/

namespace HSDP

/-- A JSON value as decoded into Go's `map[string]interface{}`; only the
shapes the connector inspects (string-ness) matter, so a compact value
type suffices. A Go type assertion `.(string)` succeeds exactly on `str`. -/
inductive JSONValue where
  | str (s : String)
  | num (n : Int)
  | boolean (b : Bool)
  | null
deriving DecidableEq, Repr

/-- The userinfo claims bag: Go's `map[string]interface{}` (unique keys). -/
def Claims : Type := List (String × JSONValue)

instance : DecidableEq Claims := by
  unfold Claims
  infer_instance

/-- Go map lookup `claims[k]`: `none` models a missing key (nil interface). -/
def claimGet (claims : Claims) (k : String) : Option JSONValue :=
  match claims.find? (fun kv => kv.1 == k) with
  | some kv => some kv.2
  | none => none

/-- Model of `iam.IntrospectResponse`: the fields the connector reads (`Sub`,
`Username`, `IdentityType`) plus the validity flag carried along. -/
structure IntrospectResponse where
  active : Bool
  sub : String
  username : String
  identityType : String
deriving DecidableEq, Repr

/-- Model of `iam.Profile`: opaque record, only stored into the session blob. -/
structure Profile where
  id : String
  givenName : String
  familyName : String
deriving DecidableEq, Repr

/-- Model of `oauth2.Token`: the fields the connector reads or stores. Expiry is a
Unix timestamp. -/
structure Token where
  accessToken : String
  tokenType : String
  refreshToken : String
  expiry : Int
deriving DecidableEq, Repr

/-- The `tokenResponse` struct decoded from the SAML2 bearer-assertion
exchange's JSON body. -/
structure TokenResponse where
  scope : String
  accessToken : String
  refreshToken : String
  expiresIn : Int
  tokenType : String
  idToken : String
deriving DecidableEq, Repr

/-- Model of `ConnectorData`: the session blob serialized into the identity.
Byte-slice fields hold the corresponding strings (UTF-8 round-trip is
faithful); `user` is `none` while the profile lookup returned nil. -/
structure ConnectorData where
  refreshToken : String
  accessToken : String
  assertion : String
  groups : List String
  trustedIDPOrg : String
  audienceTrustMap : List (String × String)
  tenantMap : List (String × String)
  introspect : IntrospectResponse
  user : Option Profile
deriving DecidableEq, Repr

/-- The zero `ConnectorData` (`cd := ConnectorData{}`). -/
def emptyConnectorData : ConnectorData :=
  { refreshToken := ""
    accessToken := ""
    assertion := ""
    groups := []
    trustedIDPOrg := ""
    audienceTrustMap := []
    tenantMap := []
    introspect := { active := false, sub := "", username := "", identityType := "" }
    user := none }

/-- Model of `connector.Identity`: the canonical identity handed to the broker.
`connectorData = none` models a nil `ConnectorData` byte slice. -/
structure Identity where
  userID : String
  username : String
  email : String
  emailVerified : Bool
  groups : List String
  connectorData : Option ConnectorData
deriving DecidableEq, Repr

/-- The zero `connector.Identity` (`var identity connector.Identity`). -/
def emptyIdentity : Identity :=
  { userID := ""
    username := ""
    email := ""
    emailVerified := false
    groups := []
    connectorData := none }

/-- The `caller` enumeration: invocation mode of `createIdentity`. -/
inductive Caller where
  | createCaller
  | refreshCaller
  | exchangeCaller
deriving DecidableEq, Repr

/-- Model of `connector.Scopes`: the downstream broker's requested scopes. -/
structure Scopes where
  offlineAccess : Bool
  groups : Bool
deriving DecidableEq, Repr

/-- An incoming callback request, reduced to its parsed query parameters
(`r.URL.Query()`); `queryGetValue` below models `Values.Get`. -/
structure Request where
  query : List (String × String)
deriving DecidableEq, Repr

/-- Model of `url.Values.Get`: first value for the key, `""` when absent. -/
def queryGetValue (values : List (String × String)) (key : String) : String :=
  match values.find? (fun kv => kv.1 == key) with
  | some kv => kv.2
  | none => ""

/-- The connector's error values, one constructor per `return ..., err`
site reachable in the embedded operations. -/
inductive HSDPError where
  /-- `LoginURL`: supplied callback URL differs from the configured one. -/
  | configMismatch (callbackURL redirectURI : String)
  /-- `LoginURL`: `url.Parse(c.samlLoginURL)` failed
  (`fmt.Errorf("invalid SAML2 login URL: %w", err)`).  The model also
  returns this value on URL shapes its conservative parser declines to
  model, where Go may succeed — see `parseURLE`. -/
  | invalidSAML2LoginURL (msg : String)
  /-- `LoginURL`: not a returned error but an abort — the source discards
  the `url.Parse(callbackURL)` error, leaving `cbu` nil, and the
  following `cbu.Query()` dereferences the nil pointer, so Go aborts
  here; the abort is modelled as this error value.  The model also
  returns it on callback-URL shapes its conservative parser declines to
  model, where Go may succeed — see `parseURLE`. -/
  | nilURLDereference
  /-- `HandleCallback`: upstream sent an `error` query parameter
  (`oauth2Error` in the source). -/
  | oauth2Error (errType errorDescription : String)
  /-- SAML exchange: transport failure (`doRequest` or body read error). -/
  | samlExchangeTransport (msg : String)
  /-- SAML exchange: non-200 HTTP status. -/
  | samlExchangeStatus (status : String) (body : String)
  /-- SAML exchange: JSON body did not unmarshal into `tokenResponse`. -/
  | samlTokenParse (msg : String)
  /-- OAuth2 mode: authorization-code exchange failed. -/
  | codeExchangeFailed (msg : String)
  /-- `createIdentity`: userinfo fetch or claims decode failed. -/
  | userInfoFailed (msg : String)
  /-- `createIdentity`: introspection failed. -/
  | introspectFailed (msg : String)
  /-- `createIdentity`: `errors.New("missing \"email\" claim")`. -/
  | missingEmailClaim
  /-- `createIdentity`: `hd` claim not in the hosted-domain allow-list. -/
  | unexpectedHdClaim (hd : String)
  /-- `Refresh`: connector data did not unmarshal. -/
  | sessionCorrupt (msg : String)
  /-- `Refresh`: refresh-token redemption failed. -/
  | refreshFailed (msg : String)
deriving DecidableEq, Repr

/-- Oracle results of the three upstream calls `createIdentity` makes, in
source order: userinfo (fetch + claims decode collapsed into one
`Except`, both failure sites being fatal with the same shape),
introspection, and the best-effort profile lookup by introspection
subject (`none` models a nil `*iam.Profile`; a lookup error is only
logged, never surfaced, so it needs no oracle of its own). -/
structure ResolveEnv where
  userinfo : Except String Claims
  introspect : Except String IntrospectResponse
  profile : Option Profile

/-- The connector state relevant to the embedded operations
(`HSDPConnector` fields; `scopes` is `oauth2Config.Scopes`). -/
structure HSDPConnector where
  redirectURI : String
  samlLoginURL : String
  clientID : String
  clientSecret : String
  scopes : List String
  hostedDomains : List String
  insecureSkipEmailVerified : Bool
  promptType : String
  tenantMap : List (String × String)
deriving DecidableEq, Repr

/-- Model of `isSAML`: SAML mode is on iff a SAML login URL is configured. -/
def HSDPConnector.isSAML (c : HSDPConnector) : Bool :=
  c.samlLoginURL.length > 0

/-- The assertion `createIdentity` saves into the fresh session blob:
the callback request's `assertion` query parameter, but only under
`caller == createCaller && c.isSAML() && r != nil`; empty otherwise
(a fresh `ConnectorData{}` has an empty assertion). -/
def savedAssertion (c : HSDPConnector) (r : Option Request) (caller : Caller) : String :=
  if caller = Caller.createCaller ∧ c.isSAML then
    match r with
    | some req => queryGetValue req.query "assertion"
    | none => ""
  else ""

/-- The linear scan of `c.oauth2Config.Scopes` for `"email"`. -/
def hasEmailScope (c : HSDPConnector) : Bool :=
  c.scopes.contains "email"

/-- Model of `email, found := claims["email"].(string)`: the Go two-valued type
assertion, succeeding only on a string-valued claim. -/
def emailClaim (claims : Claims) : String × Bool :=
  match claimGet claims "email" with
  | some (JSONValue.str s) => (s, true)
  | _ => ("", false)

/-- Email after the Service override: for Service identities the
introspection subject replaces the email claim. -/
def resolvedEmail (claims : Claims) (introspectResponse : IntrospectResponse) :
    String × Bool :=
  if introspectResponse.identityType = "Service" then (introspectResponse.sub, true)
  else emailClaim claims

/-- Model of `hostedDomain, _ := claims["hd"].(string)`: the one-valued form,
yielding `""` for a missing or non-string claim. -/
def hdClaim (claims : Claims) : String :=
  match claimGet claims "hd" with
  | some (JSONValue.str s) => s
  | _ => ""

/-- Model of `createIdentity`: the Identity Resolver.  Returns the Go pair
`(identity, err)`: error paths return the `identity` argument unchanged,
the success path returns the assembled identity with `err = none`.
`r = none` models the nil `*http.Request` passed by `Refresh` and
`TokenIdentity`. -/
def createIdentity (c : HSDPConnector) (identity : Identity) (token : Token)
    (r : Option Request) (caller : Caller) (env : ResolveEnv) :
    Identity × Option HSDPError :=
  -- cd := ConnectorData{}; if caller == createCaller && c.isSAML() && r != nil { save assertion }
  let cd : ConnectorData := { emptyConnectorData with assertion := savedAssertion c r caller }
  match env.userinfo with
  | Except.error e => (identity, some (HSDPError.userInfoFailed e))
  | Except.ok claims =>
  match env.introspect with
  | Except.error e => (identity, some (HSDPError.introspectFailed e))
  | Except.ok introspectResponse =>
  let emailFound : String × Bool := resolvedEmail claims introspectResponse
  if !emailFound.2 && hasEmailScope c then
    (identity, some HSDPError.missingEmailClaim)
  else
  -- emailVerified := true; if c.isSAML() { emailVerified = true }
  -- (the SAML re-assignment writes the same constant, so the flag is true
  -- unconditionally in both modes)
  let emailVerified : Bool := true
  let hostedDomain : String := hdClaim claims
  if decide (0 < c.hostedDomains.length) && !c.hostedDomains.contains hostedDomain then
    (identity, some (HSDPError.unexpectedHdClaim hostedDomain))
  else
  let cd : ConnectorData :=
    { cd with
        refreshToken := token.refreshToken
        accessToken := token.accessToken
        introspect := introspectResponse }
  -- best-effort profile lookup by introspectResponse.Sub; nil user leaves cd.User zero
  let cd : ConnectorData :=
    match env.profile with
    | some user => { cd with user := some user }
    | none => cd
  let assembled : Identity :=
    { userID := introspectResponse.sub
      username := introspectResponse.username
      email := emailFound.1
      emailVerified := emailVerified
      groups := []
      connectorData := none }
  -- identity.ConnectorData = json.Marshal(&cd) (total for this struct)
  let assembled : Identity := { assembled with connectorData := some cd }
  (assembled, none)

/-- Which upstream exchange `HandleCallback` performed; collected as a
trace so "no token exchange is attempted" is a statement of the model. -/
inductive ExchangeEvent where
  | samlBearerExchange
  | authorizationCodeExchange
deriving DecidableEq, Repr

/-- Result of the SAML2 bearer-assertion HTTP POST: status line, body, and
the result of `json.Unmarshal` of that body into `tokenResponse`. -/
structure SamlExchangeResponse where
  statusCode : Nat
  status : String
  body : String
  parsed : Except String TokenResponse

/-- Oracles for the upstream calls `HandleCallback` can make. -/
structure CallbackEnv where
  samlExchange : Except String SamlExchangeResponse
  codeExchange : Except String Token
  resolve : ResolveEnv

/-- Model of `HandleCallback`: consumes the provider's callback, produces
`(identity, err)` plus the trace of exchanges performed. -/
def HandleCallback (c : HSDPConnector) (s : Scopes) (r : Request)
    (env : CallbackEnv) : (Identity × Option HSDPError) × List ExchangeEvent :=
  let identity := emptyIdentity
  let errType := queryGetValue r.query "error"
  if errType ≠ "" then
    ((identity, some (HSDPError.oauth2Error errType (queryGetValue r.query "error_description"))), [])
  else if c.isSAML then
    -- POST grant_type=saml2-bearer&assertion=... to the token endpoint
    match env.samlExchange with
    | Except.error e => ((identity, some (HSDPError.samlExchangeTransport e)), [ExchangeEvent.samlBearerExchange])
    | Except.ok resp =>
      if resp.statusCode ≠ 200 then
        ((identity, some (HSDPError.samlExchangeStatus resp.status resp.body)), [ExchangeEvent.samlBearerExchange])
      else
        match resp.parsed with
        | Except.error e => ((identity, some (HSDPError.samlTokenParse e)), [ExchangeEvent.samlBearerExchange])
        | Except.ok tr =>
          let token : Token :=
            { accessToken := tr.accessToken
              tokenType := tr.tokenType
              refreshToken := tr.refreshToken
              expiry := tr.expiresIn }
          (createIdentity c identity token (some r) Caller.createCaller env.resolve,
           [ExchangeEvent.samlBearerExchange])
  else
    match env.codeExchange with
    | Except.error e => ((identity, some (HSDPError.codeExchangeFailed e)), [ExchangeEvent.authorizationCodeExchange])
    | Except.ok token =>
      (createIdentity c identity token (some r) Caller.createCaller env.resolve,
       [ExchangeEvent.authorizationCodeExchange])

/-- Model of `json.Unmarshal(identity.ConnectorData, &cd)`: fails on bytes that are
not a serialized blob (modelled by `none`, covering the nil slice). -/
def unmarshalConnectorData (blob : Option ConnectorData) : Except String ConnectorData :=
  match blob with
  | none => Except.error "unexpected end of JSON input"
  | some cd => Except.ok cd

/-- Model of `Refresh`: re-enters the resolver with a live-redeemed token.
`tokenSource` is the oracle for `oauth2Config.TokenSource(ctx, t).Token()`
as a function of the stored refresh token (the constructed `t` carries
only that refresh token and an already-expired expiry, forcing live
redemption). -/
def Refresh (c : HSDPConnector) (s : Scopes) (identity : Identity)
    (tokenSource : String → Except String Token) (env : ResolveEnv) :
    Identity × Option HSDPError :=
  match unmarshalConnectorData identity.connectorData with
  | Except.error e => (identity, some (HSDPError.sessionCorrupt e))
  | Except.ok cd =>
    match tokenSource cd.refreshToken with
    | Except.error e => (identity, some (HSDPError.refreshFailed e))
    | Except.ok token =>
      createIdentity c identity token none Caller.refreshCaller env

/-! ### URL model (the slice of `net/url` that `LoginURL` exercises)

URLs are split at the first `?` into a base (scheme, host, path) and a raw
query string.  Query strings are parsed, edited and re-encoded exactly as
`url.Values` does: `Set` replaces every binding of a key, `Encode` sorts
bindings by key and percent-escapes keys and values (`QueryEscape`: keep
ASCII alphanumerics and `-_.~`, turn a space into `+`, escape everything
else as an uppercase `%XX` byte).  The model works per character, which
coincides with Go's per-byte escaping on single-byte (ASCII/Latin-1 range)
characters — the theorems about `LoginURL` therefore carry an ASCII
hypothesis on the strings involved. -/

/-- Split a character list at the first occurrence of `c`: the part before
it, and `some` remainder after it (`none` when `c` does not occur). -/
def splitAtFirst (c : Char) : List Char → List Char × Option (List Char)
  | [] => ([], none)
  | x :: xs =>
    if x = c then ([], some xs)
    else
      let r := splitAtFirst c xs
      (x :: r.1, r.2)

/-- A URL: base (scheme, authority, path — everything before the first
`?`), raw query, and raw fragment.  Go keeps the fragment both decoded
and raw; only the raw text matters for `URL.String`, which re-emits it
verbatim whenever the original encoding was valid — and the parse model
below only succeeds on valid encodings, so storing the raw text is
faithful. -/
structure URL where
  base : String
  rawQuery : String
  fragment : String
deriving DecidableEq, Repr

/-- Model of `URL.String` on parsed URLs: base, then `?`-prefixed query
when non-empty, then `#`-prefixed fragment when non-empty.  (Go's
`ForceQuery` flag — a bare trailing `?` — is not represented: at both use
sites the raw query has just been overwritten by a non-empty `Encode`
result, where the flag is irrelevant.) -/
def urlString (u : URL) : String :=
  (if u.rawQuery = "" then u.base else u.base ++ "?" ++ u.rawQuery) ++
  (if u.fragment = "" then "" else "#" ++ u.fragment)

/-- Numeric value of a hexadecimal digit character (`0-9`, `a-f`, `A-F`,
compared as code points exactly as Go's `unhex` compares bytes). -/
def hexDigitVal (c : Char) : Option Nat :=
  if 48 ≤ c.toNat ∧ c.toNat ≤ 57 then some (c.toNat - 48)
  else if 97 ≤ c.toNat ∧ c.toNat ≤ 102 then some (c.toNat - 97 + 10)
  else if 65 ≤ c.toNat ∧ c.toNat ≤ 70 then some (c.toNat - 65 + 10)
  else none

/-- Model of `url.QueryUnescape` on characters: `+` becomes a space, `%XX` becomes
the coded character.  (Go reports an error on a malformed `%` escape and
`Query()` then drops the pair; the model keeps such text literally — the
connector never feeds it malformed escapes.) -/
def queryUnescapeList : List Char → List Char
  | [] => []
  | ch :: rest =>
    if ch = '+' then ' ' :: queryUnescapeList rest
    else if ch = '%' then
      match rest with
      | a :: b :: rest2 =>
        match hexDigitVal a, hexDigitVal b with
        | some x, some y => Char.ofNat (16 * x + y) :: queryUnescapeList rest2
        | _, _ => '%' :: a :: b :: queryUnescapeList rest2
      | [a] => ['%', if a = '+' then ' ' else a]
      | [] => ['%']
    else ch :: queryUnescapeList rest

/-- The characters `url.QueryEscape` leaves unescaped: `A-Z`, `a-z`,
`0-9`, `-`, `_`, `.`, `~` (compared as code points, exactly as Go's
`shouldEscape` compares bytes). -/
def isUnreservedQueryChar (ch : Char) : Bool :=
  (decide (65 ≤ ch.toNat) && decide (ch.toNat ≤ 90)) ||
  (decide (97 ≤ ch.toNat) && decide (ch.toNat ≤ 122)) ||
  (decide (48 ≤ ch.toNat) && decide (ch.toNat ≤ 57)) ||
  ch.toNat == 45 || ch.toNat == 95 || ch.toNat == 46 || ch.toNat == 126

/-- Uppercase hexadecimal digit for `n < 16`. -/
def toUpperHexDigit (n : Nat) : Char :=
  if n < 10 then Char.ofNat (48 + n) else Char.ofNat (55 + n)

/-- Model of `url.QueryEscape` on one character. -/
def queryEscapeChar (ch : Char) : List Char :=
  if ch = ' ' then ['+']
  else if isUnreservedQueryChar ch then [ch]
  else ['%', toUpperHexDigit (ch.toNat / 16), toUpperHexDigit (ch.toNat % 16)]

/-- Model of `url.QueryEscape` on a string, as a character list. -/
def queryEscapeList (s : String) : List Char :=
  (s.toList.map queryEscapeChar).flatten

/-- Split a raw query at every `&` (accumulator-based). -/
def splitSegmentsAux : List Char → List Char → List (List Char)
  | [], acc => [acc.reverse]
  | x :: xs, acc =>
    if x = '&' then acc.reverse :: splitSegmentsAux xs []
    else splitSegmentsAux xs (x :: acc)

/-- All `&`-separated segments of a raw query. -/
def splitSegments (l : List Char) : List (List Char) :=
  splitSegmentsAux l []

/-- One `key=value` segment: cut at the first `=`, unescape both sides. -/
def parsePair (seg : List Char) : String × String :=
  let r := splitAtFirst '=' seg
  (String.mk (queryUnescapeList r.1),
   match r.2 with
   | some v => String.mk (queryUnescapeList v)
   | none => "")

/-- Model of `url.ParseQuery` (as used via `Query()`, errors discarded): split on
`&`, skip empty segments, cut each at the first `=`, unescape. -/
def parseQuery (raw : String) : List (String × String) :=
  (splitSegments raw.toList).filterMap
    (fun seg => if seg.isEmpty then none else some (parsePair seg))

/-- Model of `url.Values.Set`: drop every binding of the key, add the new one. -/
def setValue (values : List (String × String)) (key value : String) :
    List (String × String) :=
  values.filter (fun kv => !(kv.1 == key)) ++ [(key, value)]

/-- Model of `url.Values.Encode` without the final sort: escaped `k=v` pairs joined
by `&`. -/
def encodeQueryList : List (String × String) → List Char
  | [] => []
  | [kv] => queryEscapeList kv.1 ++ '=' :: queryEscapeList kv.2
  | kv :: rest =>
    queryEscapeList kv.1 ++ '=' :: queryEscapeList kv.2 ++ '&' :: encodeQueryList rest

/-- Model of `url.Values.Encode`: bindings sorted by key, escaped, `&`-joined. -/
def encodeQuery (values : List (String × String)) : String :=
  String.mk (encodeQueryList (values.insertionSort (fun a b => a.1 ≤ b.1)))

/-- Every `%` is followed by two hexadecimal digits, the escape-syntax
check Go's `unescape` applies to each URL component it decodes. -/
def validPercentEscapes : List Char → Bool
  | [] => true
  | '%' :: a :: b :: rest =>
    (hexDigitVal a).isSome && (hexDigitVal b).isSome && validPercentEscapes rest
  | '%' :: _ => false
  | _ :: rest => validPercentEscapes rest

/-- An ASCII letter. -/
def isAlphaChar (c : Char) : Bool :=
  (decide (65 ≤ c.toNat) && decide (c.toNat ≤ 90)) ||
  (decide (97 ≤ c.toNat) && decide (c.toNat ≤ 122))

/-- An ASCII digit. -/
def isDigitChar (c : Char) : Bool :=
  decide (48 ≤ c.toNat) && decide (c.toNat ≤ 57)

/-- A scheme: one letter, then letters, digits, `+`, `-`, `.` (Go's
`getScheme`). -/
def validScheme : List Char → Bool
  | [] => false
  | c :: rest =>
    isAlphaChar c &&
    rest.all (fun x => isAlphaChar x || isDigitChar x || x == '+' || x == '-' || x == '.')

/-- A plain authority the model supports: non-empty, no userinfo (`@`),
no IP-literal brackets, no percent-escapes, and if a port is present
(after the last `:`) it is all digits — on such an authority Go's
`parseHost` succeeds. -/
def simpleAuthority (authority : List Char) : Bool :=
  !authority.isEmpty &&
  !authority.any (fun c => c == '@' || c == '[' || c == ']' || c == '%') &&
  (match splitAtFirst ':' authority.reverse with
   | (revPort, some _) => revPort.all isDigitChar
   | (_, none) => true)

/-- Conservative model of `url.Parse`.  Faithful to Go where it rejects:
the fragment is split off first, then a control byte (below 32, or 127)
anywhere before the fragment is fatal, and a malformed percent-escape in
the pre-query part or in the fragment is fatal (Go decodes both; the raw
query is kept undecoded and is therefore not checked — exactly as in
Go).  Beyond that the model only accepts absolute
`scheme://authority/...` URLs with a `simpleAuthority`: on that shape
Go's parse succeeds and its `URL.String` reproduces the original text of
each component, which is what `urlString` assumes.  URL shapes outside
it (relative references, userinfo, IP-literals, escaped hosts) are
rejected by the model rather than modelled, so the model never succeeds
where Go fails. -/
def parseURLE (s : String) : Except String URL :=
  let fragSplit := splitAtFirst '#' s.data
  if fragSplit.1.any (fun c => decide (c.toNat < 32) || c.toNat == 127) then
    Except.error "net/url: invalid control character in URL"
  else
    let querySplit := splitAtFirst '?' fragSplit.1
    if !validPercentEscapes querySplit.1 then
      Except.error "invalid URL escape"
    else
      let frag : List Char :=
        match fragSplit.2 with
        | some f => f
        | none => []
      if !validPercentEscapes frag then
        Except.error "invalid URL escape"
      else
        match splitAtFirst ':' querySplit.1 with
        | (scheme, some rest) =>
          match rest with
          | '/' :: '/' :: rest2 =>
            if validScheme scheme && simpleAuthority (splitAtFirst '/' rest2).1 then
              Except.ok
                { base := String.mk querySplit.1
                  rawQuery :=
                    match querySplit.2 with
                    | some q => String.mk q
                    | none => ""
                  fragment := String.mk frag }
            else Except.error "URL shape outside the modelled fragment of net/url"
          | _ => Except.error "URL shape outside the modelled fragment of net/url"
        | (_, none) => Except.error "URL shape outside the modelled fragment of net/url"

/-- Model of `LoginURL`: produces the redirect target for a new login.
`authCodeURL` is the `oauth2.Config.AuthCodeURL` collaborator (external
library), applied to the state and the extra URL parameters the connector
computes; the SAML branch is the connector's own URL construction.  The
source discards the error of `url.Parse(callbackURL)` — on a failing
parse `cbu` is nil and `cbu.Query()` aborts, modelled as
`nilURLDereference` — and returns the error of
`url.Parse(c.samlLoginURL)` wrapped as an invalid-SAML2-login-URL
error. -/
def LoginURL (c : HSDPConnector) (authCodeURL : String → List (String × String) → String)
    (s : Scopes) (callbackURL state : String) : Except HSDPError String :=
  if c.redirectURI ≠ callbackURL then
    Except.error (HSDPError.configMismatch callbackURL c.redirectURI)
  else if c.isSAML then
    -- SAML2 flow: embed state into the callback URL, embed that URL into
    -- the configured SAML login page URL as redirect_uri
    match parseURLE callbackURL with
    | Except.error _ => Except.error HSDPError.nilURLDereference
    | Except.ok cbu =>
      let values := setValue (parseQuery cbu.rawQuery) "state" state
      let cbu : URL := { cbu with rawQuery := encodeQuery values }
      match parseURLE c.samlLoginURL with
      | Except.error e => Except.error (HSDPError.invalidSAML2LoginURL e)
      | Except.ok u =>
        let values := setValue (parseQuery u.rawQuery) "redirect_uri" (urlString cbu)
        let u : URL := { u with rawQuery := encodeQuery values }
        Except.ok (urlString u)
  else
    let opts : List (String × String) :=
      (match c.hostedDomains with
       | [] => []
       | d :: rest => [("hd", if 0 < rest.length then "*" else d)]) ++
      (if s.offlineAccess then [("access_type", "offline"), ("prompt", c.promptType)] else [])
    Except.ok (authCodeURL state opts)

/-- Model of `TokenIdentity`: wraps the subject token as a bearer access token and
re-enters the resolver under `exchange` mode.  `subjectTokenType` is
accepted but never read. -/
def TokenIdentity (c : HSDPConnector) (subjectTokenType subjectToken : String)
    (env : ResolveEnv) : Identity × Option HSDPError :=
  let identity := emptyIdentity
  let token : Token :=
    { accessToken := subjectToken
      tokenType := "Bearer"
      refreshToken := ""
      expiry := 0 }
  createIdentity c identity token none Caller.exchangeCaller env

/-! ### Concrete fixtures used by the witnesses -/

/-- A user-type introspection result. -/
def sampleIntrospect : IntrospectResponse :=
  { active := true, sub := "sub-123", username := "jdoe", identityType := "User" }

/-- A service-type introspection result. -/
def sampleServiceIntrospect : IntrospectResponse :=
  { active := true, sub := "svc-9", username := "svc", identityType := "Service" }

/-- An OAuth2-mode (no SAML login URL) connector configuration. -/
def sampleConn : HSDPConnector :=
  { redirectURI := "https://dex.example.com/callback"
    samlLoginURL := ""
    clientID := "cid"
    clientSecret := "secret"
    scopes := ["openid", "profile", "email"]
    hostedDomains := []
    insecureSkipEmailVerified := false
    promptType := "consent"
    tenantMap := [] }

/-- A token as supplied by an exchange. -/
def sampleToken : Token :=
  { accessToken := "a1", tokenType := "Bearer", refreshToken := "r1", expiry := 0 }

/-- Oracles for a clean resolution of a user identity. -/
def sampleEnv : ResolveEnv :=
  { userinfo := Except.ok [("email", JSONValue.str "jdoe@acme.com")]
    introspect := Except.ok sampleIntrospect
    profile := none }

/-- Callback oracles: the code exchange succeeds. -/
def sampleCallbackEnv : CallbackEnv :=
  { samlExchange := Except.error "not used"
    codeExchange := Except.ok sampleToken
    resolve := sampleEnv }

/-- A stored session blob carrying a refresh token. -/
def sampleBlob : ConnectorData :=
  { emptyConnectorData with refreshToken := "r0", introspect := sampleIntrospect }

/-- A previously issued identity carrying `sampleBlob`. -/
def sampleStoredIdentity : Identity :=
  { userID := "sub-123", username := "jdoe", email := "jdoe@acme.com"
    emailVerified := true, groups := [], connectorData := some sampleBlob }

/-- Refresh-token redemption oracle: succeeds with a fresh token. -/
def sampleTokenSource : String → Except String Token :=
  fun _ => Except.ok { accessToken := "a2", tokenType := "Bearer", refreshToken := "r2", expiry := 0 }

/-- A clean authorization-code callback request. -/
def sampleRequest : Request := { query := [("code", "abc")] }

/-- No requested scopes flags. -/
def sampleScopes : Scopes := { offlineAccess := false, groups := false }

/-- The three entry points applied to the fixtures. -/
def sampleCallbackResult : (Identity × Option HSDPError) × List ExchangeEvent :=
  HandleCallback sampleConn sampleScopes sampleRequest sampleCallbackEnv

def sampleRefreshResult : Identity × Option HSDPError :=
  Refresh sampleConn sampleScopes sampleStoredIdentity sampleTokenSource sampleEnv

def sampleExchangeResult : Identity × Option HSDPError :=
  TokenIdentity sampleConn "urn:ietf:params:oauth:token-type:access_token" "tok1" sampleEnv

/-- A SAML-mode connector configuration. -/
def samlConn : HSDPConnector :=
  { sampleConn with samlLoginURL := "https://iam.example.com/saml2/login" }

/-- The spec scenario's SAML callback: `assertion=XYZ`. -/
def samlRequest : Request := { query := [("assertion", "XYZ"), ("state", "st8")] }

/-- The spec scenario's exchange response body. -/
def samlTokenResponse : TokenResponse :=
  { scope := "", accessToken := "a1", refreshToken := "r1", expiresIn := 0
    tokenType := "Bearer", idToken := "" }

/-- A 200 bearer-assertion exchange response carrying it. -/
def samlExchangeResp : SamlExchangeResponse :=
  { statusCode := 200, status := "200 OK"
    body := "json body", parsed := Except.ok samlTokenResponse }

/-- Callback oracles for the SAML flow. -/
def samlCallbackEnv : CallbackEnv :=
  { samlExchange := Except.ok samlExchangeResp
    codeExchange := Except.error "not used"
    resolve := sampleEnv }

def samlCallbackResult : (Identity × Option HSDPError) × List ExchangeEvent :=
  HandleCallback samlConn sampleScopes samlRequest samlCallbackEnv

def samlRefreshResult : Identity × Option HSDPError :=
  Refresh samlConn sampleScopes sampleStoredIdentity sampleTokenSource sampleEnv

def samlExchangeIdResult : Identity × Option HSDPError :=
  TokenIdentity samlConn "urn:ietf:params:oauth:token-type:access_token" "tok1" sampleEnv

/-- A callback request carrying an upstream error. -/
def errorRequest : Request :=
  { query := [("error", "access_denied"), ("error_description", "user denied")] }

/-- A connector restricted to the hosted domain `acme.com`. -/
def acmeConn : HSDPConnector := { sampleConn with hostedDomains := ["acme.com"] }

def acmeClaims : Claims :=
  [("email", JSONValue.str "jdoe@acme.com"), ("hd", JSONValue.str "acme.com")]

def otherClaims : Claims :=
  [("email", JSONValue.str "jdoe@other.com"), ("hd", JSONValue.str "other.com")]

def acmeEnv : ResolveEnv :=
  { userinfo := Except.ok acmeClaims, introspect := Except.ok sampleIntrospect
    profile := none }

def otherEnv : ResolveEnv :=
  { userinfo := Except.ok otherClaims, introspect := Except.ok sampleIntrospect
    profile := none }

/-- A previously issued identity whose connector data does not
unmarshal (for example the nil byte slice). -/
def strandedIdentity : Identity :=
  { userID := "user-1", username := "u", email := "u@x.y"
    emailVerified := true, groups := [], connectorData := none }

/-- Oracles in which the userinfo fetch fails. -/
def failingEnv : ResolveEnv :=
  { userinfo := Except.error "userinfo 500"
    introspect := Except.error "introspect 500"
    profile := none }

/-- Oracles for a service-identity resolution (a human email claim is
present and gets overridden). -/
def sampleServiceEnv : ResolveEnv :=
  { userinfo := Except.ok [("email", JSONValue.str "human@acme.com")]
    introspect := Except.ok sampleServiceIntrospect
    profile := none }

def sampleServiceResult : Identity × Option HSDPError :=
  createIdentity sampleConn emptyIdentity sampleToken none Caller.exchangeCaller sampleServiceEnv

/-- Oracles with no `email` claim at all. -/
def sampleNoEmailEnv : ResolveEnv :=
  { userinfo := Except.ok [("name", JSONValue.str "John")]
    introspect := Except.ok sampleIntrospect
    profile := none }

/-- Oracles whose `email` claim is the number 42. -/
def sampleNumericEmailEnv : ResolveEnv :=
  { userinfo := Except.ok [("email", JSONValue.num 42)]
    introspect := Except.ok sampleIntrospect
    profile := none }

/-! ### Helper lemmas about the Identity Resolver -/

/-- Exact shape of a successful resolution: both oracles returned `ok`,
and every field of the output is determined by them, the token and the
saved assertion. -/
theorem createIdentity_success_shape {c : HSDPConnector} {idIn idOut : Identity}
    {token : Token} {r : Option Request} {caller : Caller} {env : ResolveEnv}
    (h : createIdentity c idIn token r caller env = (idOut, none)) :
    ∃ claims intro,
      env.userinfo = Except.ok claims ∧
      env.introspect = Except.ok intro ∧
      idOut.userID = intro.sub ∧
      idOut.username = intro.username ∧
      idOut.email = (resolvedEmail claims intro).1 ∧
      idOut.emailVerified = true ∧
      (0 < c.hostedDomains.length → hdClaim claims ∈ c.hostedDomains) ∧
      ∃ cd, idOut.connectorData = some cd ∧
        cd.refreshToken = token.refreshToken ∧
        cd.accessToken = token.accessToken ∧
        cd.introspect = intro ∧
        cd.assertion = savedAssertion c r caller := by
  unfold createIdentity at h
  dsimp only at h
  split at h
  · exact absurd h (by simp)
  rename_i claims henv
  split at h
  · exact absurd h (by simp)
  rename_i intro hintro
  refine ⟨claims, intro, henv, hintro, ?_⟩
  repeat' split at h
  all_goals rw [Prod.mk.injEq] at h
  all_goals try exact (Option.some_ne_none _ h.2).elim
  all_goals obtain ⟨h1, -⟩ := h
  all_goals subst h1
  all_goals refine ⟨rfl, rfl, rfl, rfl, fun hlen => ?_, _, rfl, rfl, rfl, rfl, rfl⟩
  all_goals by_contra hmem
  all_goals simp_all

/-- A missing (or Service-unoverridden absent) email claim with the email
scope configured is fatal: the resolver returns its `identity` argument
unchanged with the missing-email error. -/
theorem createIdentity_missing_email {c : HSDPConnector} {idIn : Identity}
    {token : Token} {r : Option Request} {caller : Caller} {env : ResolveEnv}
    {claims : Claims} {intro : IntrospectResponse}
    (henv : env.userinfo = Except.ok claims)
    (hintro : env.introspect = Except.ok intro)
    (hfound : (resolvedEmail claims intro).2 = false)
    (hscope : hasEmailScope c = true) :
    createIdentity c idIn token r caller env = (idIn, some HSDPError.missingEmailClaim) := by
  unfold createIdentity
  rw [henv, hintro]
  dsimp only
  rw [hfound, hscope]
  simp

/-- A configured hosted-domain allow-list that does not contain the `hd`
claim is fatal: the resolver returns its `identity` argument unchanged
with the unexpected-hd error. -/
theorem createIdentity_hd_reject {c : HSDPConnector} {idIn : Identity}
    {token : Token} {r : Option Request} {caller : Caller} {env : ResolveEnv}
    {claims : Claims} {intro : IntrospectResponse}
    (henv : env.userinfo = Except.ok claims)
    (hintro : env.introspect = Except.ok intro)
    (hemail : (!(resolvedEmail claims intro).2 && hasEmailScope c) = false)
    (hlen : 0 < c.hostedDomains.length)
    (hmem : c.hostedDomains.contains (hdClaim claims) = false) :
    createIdentity c idIn token r caller env =
      (idIn, some (HSDPError.unexpectedHdClaim (hdClaim claims))) := by
  unfold createIdentity
  rw [henv, hintro]
  dsimp only
  rw [hemail]
  have hmem2 : hdClaim claims ∉ c.hostedDomains := by simpa using hmem
  simp [hlen, hmem2]

/-- A successful `HandleCallback` factors through `createIdentity` under
`create` mode, on the zero identity, with the callback request. -/
theorem HandleCallback_success {c : HSDPConnector} {s : Scopes} {r : Request}
    {cenv : CallbackEnv} {idOut : Identity} {tr : List ExchangeEvent}
    (h : HandleCallback c s r cenv = ((idOut, none), tr)) :
    ∃ token, createIdentity c emptyIdentity token (some r) Caller.createCaller
      cenv.resolve = (idOut, none) := by
  unfold HandleCallback at h
  dsimp only at h
  repeat' split at h
  all_goals simp at h
  all_goals exact ⟨_, h.1⟩

/-- A successful `Refresh` factors through `createIdentity` under
`refresh` mode, on the input identity, with no request. -/
theorem Refresh_success {c : HSDPConnector} {s : Scopes} {idIn idOut : Identity}
    {tokenSource : String → Except String Token} {env : ResolveEnv}
    (h : Refresh c s idIn tokenSource env = (idOut, none)) :
    ∃ token, createIdentity c idIn token none Caller.refreshCaller env = (idOut, none) := by
  unfold Refresh at h
  repeat' split at h
  all_goals try simp at h
  exact ⟨_, h⟩

/-- Lemma: `TokenIdentity` is `createIdentity` under `exchange` mode on the zero
identity and the bearer-wrapped subject token. -/
theorem TokenIdentity_eq_createIdentity (c : HSDPConnector)
    (subjectTokenType subjectToken : String) (env : ResolveEnv) :
    TokenIdentity c subjectTokenType subjectToken env =
      createIdentity c emptyIdentity
        { accessToken := subjectToken, tokenType := "Bearer", refreshToken := "", expiry := 0 }
        none Caller.exchangeCaller env := rfl

/-- A successful `HandleCallback` in SAML mode factors through
`createIdentity` with the token built from the parsed bearer-assertion
exchange response. -/
theorem HandleCallback_saml_success {c : HSDPConnector} {s : Scopes} {r : Request}
    {cenv : CallbackEnv} {resp : SamlExchangeResponse} {tr : TokenResponse}
    {idOut : Identity} {events : List ExchangeEvent}
    (hsaml : c.isSAML = true)
    (hse : cenv.samlExchange = Except.ok resp)
    (hparsed : resp.parsed = Except.ok tr)
    (h : HandleCallback c s r cenv = ((idOut, none), events)) :
    createIdentity c emptyIdentity
      { accessToken := tr.accessToken, tokenType := tr.tokenType
        refreshToken := tr.refreshToken, expiry := tr.expiresIn }
      (some r) Caller.createCaller cenv.resolve = (idOut, none) := by
  unfold HandleCallback at h
  dsimp only at h
  rw [hsaml, hse] at h
  dsimp only at h
  rw [hparsed] at h
  try dsimp only at h
  repeat' split at h
  all_goals try exact absurd rfl ‹¬true = true›
  all_goals simp only [Prod.mk.injEq] at h
  all_goals try exact ((Option.some_ne_none _) h.1.2).elim
  exact h.1

/-- An erroring `createIdentity` returns its `identity` argument. -/
theorem createIdentity_error_identity {c : HSDPConnector} {idIn idOut : Identity}
    {token : Token} {r : Option Request} {caller : Caller} {env : ResolveEnv}
    {e : HSDPError}
    (h : createIdentity c idIn token r caller env = (idOut, some e)) :
    idOut = idIn := by
  unfold createIdentity at h
  dsimp only at h
  repeat' split at h
  all_goals rw [Prod.mk.injEq] at h
  all_goals try exact Option.noConfusion h.2
  all_goals exact h.1.symm

/-! ### Lemmas about the URL model

The chain below establishes that `url.Values`-style encoding round-trips:
parsing the encoded query recovers exactly the encoded bindings (for
characters in the single-byte range, where the per-character model
coincides with Go's per-byte escaping). -/

theorem splitAtFirst_of_not_mem {c : Char} {l : List Char} (h : c ∉ l) :
    splitAtFirst c l = (l, none) := by
  induction l with
  | nil => rfl
  | cons x xs ih =>
    rw [List.mem_cons, not_or] at h
    rw [splitAtFirst, if_neg (fun he => h.1 he.symm), ih h.2]

theorem splitAtFirst_fst_not_mem (c : Char) (l : List Char) :
    c ∉ (splitAtFirst c l).1 := by
  induction l with
  | nil => simp [splitAtFirst]
  | cons x xs ih =>
    rw [splitAtFirst]
    split
    · simp
    · rename_i hne
      intro hmem
      rcases List.mem_cons.mp hmem with h1 | h1
      · exact hne h1.symm
      · exact ih h1

/-- When the configured SAML login URL does not parse (and the callback
URL does), `LoginURL` returns the invalid-SAML2-login-URL error wrapping
the parse error, as at the source's `url.Parse(c.samlLoginURL)` error
return. -/
theorem LoginURL_invalid_saml_url (c : HSDPConnector)
    (authCodeURL : String → List (String × String) → String) (s : Scopes)
    (callbackURL state : String) (cbu : URL) (e : String)
    (hsaml : c.isSAML = true)
    (hmatch : c.redirectURI = callbackURL)
    (hcb : parseURLE callbackURL = Except.ok cbu)
    (hbad : parseURLE c.samlLoginURL = Except.error e) :
    LoginURL c authCodeURL s callbackURL state =
      Except.error (HSDPError.invalidSAML2LoginURL e) := by
  unfold LoginURL
  rw [if_neg (fun hne => hne hmatch), if_pos hsaml, hcb]
  dsimp only
  rw [hbad]

/-- When the supplied callback URL does not parse, the source discards
the parse error and aborts on the nil `*url.URL`; the model returns the
abort value. -/
theorem LoginURL_callback_unparseable (c : HSDPConnector)
    (authCodeURL : String → List (String × String) → String) (s : Scopes)
    (callbackURL state : String) (e : String)
    (hsaml : c.isSAML = true)
    (hmatch : c.redirectURI = callbackURL)
    (hbad : parseURLE callbackURL = Except.error e) :
    LoginURL c authCodeURL s callbackURL state =
      Except.error HSDPError.nilURLDereference := by
  unfold LoginURL
  rw [if_neg (fun hne => hne hmatch), if_pos hsaml, hbad]

/-! ### Claim theorems -/

/-- Claim **C1**: For every successful resolution (`HandleCallback`, `Refresh`,
or `TokenIdentity` returning without error), the returned identity's user
identifier (`UserID`) equals the `Sub` field of the introspection
response, never the userinfo claims' `sub` value or any client-supplied
value. -/
theorem c1_userID_equals_introspection_sub
    (c : HSDPConnector) (s : Scopes) (r : Request) (cenv : CallbackEnv)
    (idIn : Identity) (tokenSource : String → Except String Token)
    (subjectTokenType subjectToken : String) (env : ResolveEnv)
    (idOut1 idOut2 idOut3 : Identity) (events : List ExchangeEvent)
    (intro1 intro2 : IntrospectResponse)
    (h1 : HandleCallback c s r cenv = ((idOut1, none), events))
    (hi1 : cenv.resolve.introspect = Except.ok intro1)
    (h2 : Refresh c s idIn tokenSource env = (idOut2, none))
    (h3 : TokenIdentity c subjectTokenType subjectToken env = (idOut3, none))
    (hi2 : env.introspect = Except.ok intro2) :
    idOut1.userID = intro1.sub ∧ idOut2.userID = intro2.sub ∧ idOut3.userID = intro2.sub := by
  obtain ⟨t1, hc1⟩ := HandleCallback_success h1
  obtain ⟨cl1, i1, -, hint1, hid1, -⟩ := createIdentity_success_shape hc1
  obtain ⟨t2, hc2⟩ := Refresh_success h2
  obtain ⟨cl2, i2, -, hint2, hid2, -⟩ := createIdentity_success_shape hc2
  rw [TokenIdentity_eq_createIdentity] at h3
  obtain ⟨cl3, i3, -, hint3, hid3, -⟩ := createIdentity_success_shape h3
  rw [hi1] at hint1
  rw [hi2] at hint2
  rw [hi2] at hint3
  cases hint1
  cases hint2
  cases hint3
  exact ⟨hid1, hid2, hid3⟩

/-- Claim **C2**: For every resolution in which the introspection response's
`IdentityType` equals `"Service"`, the returned identity's `Email` equals
the introspection response's `Sub`, overriding any userinfo `email` claim
that may be present (no hypothesis constrains the claims bag). -/
theorem c2_service_identity_email_is_sub
    (c : HSDPConnector) (idIn : Identity) (token : Token) (r : Option Request)
    (caller : Caller) (env : ResolveEnv) (idOut : Identity)
    (intro : IntrospectResponse)
    (h : createIdentity c idIn token r caller env = (idOut, none))
    (hintro : env.introspect = Except.ok intro)
    (hsvc : intro.identityType = "Service") :
    idOut.email = intro.sub := by
  obtain ⟨cl, i, -, hint, -, -, hemail, -⟩ := createIdentity_success_shape h
  rw [hintro] at hint
  cases hint
  rw [hemail]
  simp [resolvedEmail, hsvc]

/-- Claim **C3**: For every resolution where the configured scope set includes
`"email"`, the userinfo claims contain no `email` entry, and the
introspection identity type is not `"Service"`, resolution fails with the
missing-email-claim error and no identity is produced (the resolver
returns its input identity — the zero identity for the entry points —
unchanged, paired with the error). -/
theorem c3_missing_email_claim_fails
    (c : HSDPConnector) (idIn : Identity) (token : Token) (r : Option Request)
    (caller : Caller) (env : ResolveEnv) (claims : Claims)
    (intro : IntrospectResponse)
    (henv : env.userinfo = Except.ok claims)
    (hintro : env.introspect = Except.ok intro)
    (hscope : c.scopes.contains "email" = true)
    (hnone : claimGet claims "email" = none)
    (hsvc : intro.identityType ≠ "Service") :
    createIdentity c idIn token r caller env = (idIn, some HSDPError.missingEmailClaim) := by
  apply createIdentity_missing_email henv hintro
  · simp [resolvedEmail, hsvc, emailClaim, hnone]
  · exact hscope

/-- Claim **C4**: For every successful resolution under SAML mode with
invocation mode `create`, the Session Blob's `Assertion` field equals the
callback request's `assertion` query parameter and its `RefreshToken`
field equals the exchanged token's refresh token; under `refresh` and
`exchange` invocation modes the `Assertion` field is left empty. -/
theorem c4_saml_assertion_persistence
    (c : HSDPConnector) (s : Scopes) (r : Request) (cenv : CallbackEnv)
    (resp : SamlExchangeResponse) (tr : TokenResponse)
    (idIn : Identity) (tokenSource : String → Except String Token)
    (env : ResolveEnv) (subjectTokenType subjectToken : String)
    (idOut1 idOut2 idOut3 : Identity) (events : List ExchangeEvent)
    (hsaml : c.isSAML = true)
    (hse : cenv.samlExchange = Except.ok resp)
    (hparsed : resp.parsed = Except.ok tr)
    (h1 : HandleCallback c s r cenv = ((idOut1, none), events))
    (h2 : Refresh c s idIn tokenSource env = (idOut2, none))
    (h3 : TokenIdentity c subjectTokenType subjectToken env = (idOut3, none)) :
    (∃ cd, idOut1.connectorData = some cd ∧
       cd.assertion = queryGetValue r.query "assertion" ∧
       cd.refreshToken = tr.refreshToken) ∧
    (∃ cd, idOut2.connectorData = some cd ∧ cd.assertion = "") ∧
    (∃ cd, idOut3.connectorData = some cd ∧ cd.assertion = "") := by
  have hc1 := HandleCallback_saml_success hsaml hse hparsed h1
  obtain ⟨-, -, -, -, -, -, -, -, -, cd1, hcd1, hrt1, -, -, has1⟩ :=
    createIdentity_success_shape hc1
  obtain ⟨t2, hc2⟩ := Refresh_success h2
  obtain ⟨-, -, -, -, -, -, -, -, -, cd2, hcd2, -, -, -, has2⟩ :=
    createIdentity_success_shape hc2
  rw [TokenIdentity_eq_createIdentity] at h3
  obtain ⟨-, -, -, -, -, -, -, -, -, cd3, hcd3, -, -, -, has3⟩ :=
    createIdentity_success_shape h3
  refine ⟨⟨cd1, hcd1, ?_, hrt1⟩, ⟨cd2, hcd2, ?_⟩, ⟨cd3, hcd3, ?_⟩⟩
  · rw [has1]
    simp [savedAssertion, hsaml]
  · rw [has2]
    simp [savedAssertion]
  · rw [has3]
    simp [savedAssertion]

/-- Claim **C5**: For every callback request whose query carries a non-empty
`error` parameter, `HandleCallback` returns the upstream-auth error built
from the error code and description, and performs no token exchange (the
exchange trace is empty: neither the SAML bearer-assertion exchange nor
the authorization-code exchange happens). -/
theorem c5_error_param_short_circuits
    (c : HSDPConnector) (s : Scopes) (r : Request) (cenv : CallbackEnv)
    (herr : queryGetValue r.query "error" ≠ "") :
    HandleCallback c s r cenv =
      ((emptyIdentity, some (HSDPError.oauth2Error (queryGetValue r.query "error")
          (queryGetValue r.query "error_description"))), []) := by
  unfold HandleCallback
  dsimp only
  rw [if_pos herr]

/-- Claim **C6**: If the configured hosted-domain allow-list is non-empty,
resolution succeeds only when the userinfo `hd` claim is an entry of the
list; when the `hd` claim is not in the list (and the earlier email check
of the pipeline passed, so the hosted-domain check is reached), resolution
fails with the domain-not-allowed error. -/
theorem c6_hosted_domain_allow_list
    (c : HSDPConnector) (idIn : Identity) (token : Token) (r : Option Request)
    (caller : Caller) (env : ResolveEnv) (claims : Claims)
    (intro : IntrospectResponse)
    (hlen : 0 < c.hostedDomains.length)
    (henv : env.userinfo = Except.ok claims)
    (hintro : env.introspect = Except.ok intro) :
    (∀ idOut, createIdentity c idIn token r caller env = (idOut, none) →
       hdClaim claims ∈ c.hostedDomains) ∧
    (hdClaim claims ∉ c.hostedDomains →
       (!(resolvedEmail claims intro).2 && hasEmailScope c) = false →
       createIdentity c idIn token r caller env =
         (idIn, some (HSDPError.unexpectedHdClaim (hdClaim claims)))) := by
  constructor
  · intro idOut h
    obtain ⟨cl, i, henv2, -, -, -, -, -, hhd, -⟩ := createIdentity_success_shape h
    rw [henv] at henv2
    cases henv2
    exact hhd hlen
  · intro hmem hemail
    exact createIdentity_hd_reject henv hintro hemail hlen (by simpa using hmem)

/-- Claim **C7 (amended)**: `HandleCallback` and `TokenIdentity` return the
zero identity alongside any error; `Refresh`, however, returns the
caller-supplied identity unchanged alongside its errors — not the zero
identity.  (`LoginURL` returns no identity at all.) -/
theorem c7_amended_error_identity
    (c : HSDPConnector) (s : Scopes) (r : Request) (cenv : CallbackEnv)
    (idIn : Identity) (tokenSource : String → Except String Token)
    (env : ResolveEnv) (subjectTokenType subjectToken : String)
    (idOut1 idOut2 idOut3 : Identity) (events : List ExchangeEvent)
    (e1 e2 e3 : HSDPError) :
    (HandleCallback c s r cenv = ((idOut1, some e1), events) → idOut1 = emptyIdentity) ∧
    (TokenIdentity c subjectTokenType subjectToken env = (idOut3, some e3) →
       idOut3 = emptyIdentity) ∧
    (Refresh c s idIn tokenSource env = (idOut2, some e2) → idOut2 = idIn) := by
  refine ⟨fun h1 => ?_, fun h3 => ?_, fun h2 => ?_⟩
  · unfold HandleCallback at h1
    dsimp only at h1
    repeat' split at h1
    all_goals simp only [Prod.mk.injEq] at h1
    all_goals try exact h1.1.1.symm
    all_goals exact createIdentity_error_identity h1.1
  · rw [TokenIdentity_eq_createIdentity] at h3
    exact createIdentity_error_identity h3
  · unfold Refresh at h2
    repeat' split at h2
    all_goals try rw [Prod.mk.injEq] at h2
    all_goals try exact h2.1.symm
    exact createIdentity_error_identity (by rw [← h2.1, ← h2.2])

/-- Claim **C9**: `TokenIdentity`'s behaviour does not depend on its
`subjectTokenType` argument: two calls with the same subject token but
different subject-token types produce identical results. -/
theorem c9_subjectTokenType_not_discriminated
    (c : HSDPConnector) (tokenType1 tokenType2 subjectToken : String)
    (env : ResolveEnv) :
    TokenIdentity c tokenType1 subjectToken env =
      TokenIdentity c tokenType2 subjectToken env := rfl

/-- Claim **C10**: If the userinfo claims map contains an `email` key whose
value is not a string, resolution treats the email claim as absent: for a
non-Service identity with the email scope configured, resolution fails
with the missing-email error even though an `email` entry is present. -/
theorem c10_nonstring_email_claim_treated_as_absent
    (c : HSDPConnector) (idIn : Identity) (token : Token) (r : Option Request)
    (caller : Caller) (env : ResolveEnv) (claims : Claims)
    (intro : IntrospectResponse) (v : JSONValue)
    (henv : env.userinfo = Except.ok claims)
    (hintro : env.introspect = Except.ok intro)
    (hscope : c.scopes.contains "email" = true)
    (hget : claimGet claims "email" = some v)
    (hnotstr : ∀ t, v ≠ JSONValue.str t)
    (hsvc : intro.identityType ≠ "Service") :
    createIdentity c idIn token r caller env = (idIn, some HSDPError.missingEmailClaim) := by
  apply createIdentity_missing_email henv hintro
  · cases v with
    | str t => exact absurd rfl (hnotstr t)
    | num n => simp [resolvedEmail, hsvc, emailClaim, hget]
    | boolean b => simp [resolvedEmail, hsvc, emailClaim, hget]
    | null => simp [resolvedEmail, hsvc, emailClaim, hget]
  · exact hscope

/-! ### Witnesses and the C7 counterexample -/

/-- Witness for C1 at the fixtures: all three entry points succeed and
return user identifier `"sub-123"`, the introspection subject. -/
theorem c1_witness :
    sampleCallbackResult.1.1.userID = "sub-123" ∧
    sampleRefreshResult.1.userID = "sub-123" ∧
    sampleExchangeResult.1.userID = "sub-123" :=
  c1_userID_equals_introspection_sub sampleConn sampleScopes sampleRequest
    sampleCallbackEnv sampleStoredIdentity sampleTokenSource
    "urn:ietf:params:oauth:token-type:access_token" "tok1" sampleEnv
    sampleCallbackResult.1.1 sampleRefreshResult.1 sampleExchangeResult.1
    sampleCallbackResult.2 sampleIntrospect sampleIntrospect
    (by decide) rfl (by decide) (by decide) rfl

/-- Witness for C4 at the spec's scenario: assertion `"XYZ"` and refresh
token `"r1"` land in the session blob of the SAML `create` resolution;
`refresh` and `exchange` blobs carry an empty assertion. -/
theorem c4_witness :
    (∃ cd, samlCallbackResult.1.1.connectorData = some cd ∧
       cd.assertion = "XYZ" ∧ cd.refreshToken = "r1") ∧
    (∃ cd, samlRefreshResult.1.connectorData = some cd ∧ cd.assertion = "") ∧
    (∃ cd, samlExchangeIdResult.1.connectorData = some cd ∧ cd.assertion = "") :=
  c4_saml_assertion_persistence samlConn sampleScopes samlRequest samlCallbackEnv
    samlExchangeResp samlTokenResponse sampleStoredIdentity sampleTokenSource
    sampleEnv "urn:ietf:params:oauth:token-type:access_token" "tok1"
    samlCallbackResult.1.1 samlRefreshResult.1 samlExchangeIdResult.1
    samlCallbackResult.2 rfl rfl rfl (by decide) (by decide) (by decide)

/-- Witness for C5 at the fixtures: the upstream error is surfaced and
the exchange trace is empty. -/
theorem c5_witness :
    HandleCallback sampleConn sampleScopes errorRequest sampleCallbackEnv =
      ((emptyIdentity, some (HSDPError.oauth2Error "access_denied" "user denied")), []) :=
  c5_error_param_short_circuits sampleConn sampleScopes errorRequest
    sampleCallbackEnv (by decide)

/-- Witness for C6 at the spec's scenario: with allow-list `["acme.com"]`
the successful `hd = "acme.com"` resolution's domain is in the list, and
`hd = "other.com"` fails with the domain-not-allowed error. -/
theorem c6_witness :
    "acme.com" ∈ acmeConn.hostedDomains ∧
    createIdentity acmeConn emptyIdentity sampleToken none Caller.createCaller
      otherEnv = (emptyIdentity, some (HSDPError.unexpectedHdClaim "other.com")) :=
  ⟨(c6_hosted_domain_allow_list acmeConn emptyIdentity sampleToken none
      Caller.createCaller acmeEnv acmeClaims sampleIntrospect (by decide) rfl rfl).1
      (createIdentity acmeConn emptyIdentity sampleToken none Caller.createCaller acmeEnv).1
      (by decide),
   (c6_hosted_domain_allow_list acmeConn emptyIdentity sampleToken none
      Caller.createCaller otherEnv otherClaims sampleIntrospect (by decide) rfl rfl).2
      (by decide) (by decide)⟩

/-- Counterexample to C7 as stated: `Refresh` on a non-zero identity with
corrupt connector data returns an error *and* that same non-zero
identity, not the empty/zero identity. -/
theorem c7_counterexample :
    (Refresh sampleConn sampleScopes strandedIdentity sampleTokenSource sampleEnv).2 =
      some (HSDPError.sessionCorrupt "unexpected end of JSON input") ∧
    (Refresh sampleConn sampleScopes strandedIdentity sampleTokenSource sampleEnv).1 =
      strandedIdentity ∧
    strandedIdentity ≠ emptyIdentity := by decide

/-- Witness for the amended C7 at the fixtures. -/
theorem c7_witness :
    (HandleCallback sampleConn sampleScopes errorRequest sampleCallbackEnv).1.1 =
      emptyIdentity ∧
    (TokenIdentity sampleConn "tt" "tok1" failingEnv).1 = emptyIdentity ∧
    (Refresh sampleConn sampleScopes strandedIdentity sampleTokenSource failingEnv).1 =
      strandedIdentity :=
  ⟨(c7_amended_error_identity sampleConn sampleScopes errorRequest sampleCallbackEnv
      strandedIdentity sampleTokenSource failingEnv "tt" "tok1"
      (HandleCallback sampleConn sampleScopes errorRequest sampleCallbackEnv).1.1
      (Refresh sampleConn sampleScopes strandedIdentity sampleTokenSource failingEnv).1
      (TokenIdentity sampleConn "tt" "tok1" failingEnv).1
      (HandleCallback sampleConn sampleScopes errorRequest sampleCallbackEnv).2
      (HSDPError.oauth2Error "access_denied" "user denied")
      (HSDPError.sessionCorrupt "unexpected end of JSON input")
      (HSDPError.userInfoFailed "userinfo 500")).1 (by decide),
   (c7_amended_error_identity sampleConn sampleScopes errorRequest sampleCallbackEnv
      strandedIdentity sampleTokenSource failingEnv "tt" "tok1"
      (HandleCallback sampleConn sampleScopes errorRequest sampleCallbackEnv).1.1
      (Refresh sampleConn sampleScopes strandedIdentity sampleTokenSource failingEnv).1
      (TokenIdentity sampleConn "tt" "tok1" failingEnv).1
      (HandleCallback sampleConn sampleScopes errorRequest sampleCallbackEnv).2
      (HSDPError.oauth2Error "access_denied" "user denied")
      (HSDPError.sessionCorrupt "unexpected end of JSON input")
      (HSDPError.userInfoFailed "userinfo 500")).2.1 (by decide),
   (c7_amended_error_identity sampleConn sampleScopes errorRequest sampleCallbackEnv
      strandedIdentity sampleTokenSource failingEnv "tt" "tok1"
      (HandleCallback sampleConn sampleScopes errorRequest sampleCallbackEnv).1.1
      (Refresh sampleConn sampleScopes strandedIdentity sampleTokenSource failingEnv).1
      (TokenIdentity sampleConn "tt" "tok1" failingEnv).1
      (HandleCallback sampleConn sampleScopes errorRequest sampleCallbackEnv).2
      (HSDPError.oauth2Error "access_denied" "user denied")
      (HSDPError.sessionCorrupt "unexpected end of JSON input")
      (HSDPError.userInfoFailed "userinfo 500")).2.2 (by decide)⟩

/-- Witness for C2 at the fixtures: the service identity's email is the
introspection subject `"svc-9"`, not the userinfo claim. -/
theorem c2_witness : sampleServiceResult.1.email = "svc-9" :=
  c2_service_identity_email_is_sub sampleConn emptyIdentity sampleToken none
    Caller.exchangeCaller sampleServiceEnv sampleServiceResult.1
    sampleServiceIntrospect (by decide) rfl rfl

/-- Witness for C3 at the fixtures: email scope configured, no email
claim, non-Service identity: the missing-email error and no identity. -/
theorem c3_witness :
    createIdentity sampleConn emptyIdentity sampleToken none Caller.createCaller
      sampleNoEmailEnv = (emptyIdentity, some HSDPError.missingEmailClaim) :=
  c3_missing_email_claim_fails sampleConn emptyIdentity sampleToken none
    Caller.createCaller sampleNoEmailEnv [("name", JSONValue.str "John")]
    sampleIntrospect rfl rfl (by decide) (by decide) (by decide)

/-- Witness for C10 at the fixtures: a numeric `email` claim is treated
as absent and resolution fails with the missing-email error. -/
theorem c10_witness :
    createIdentity sampleConn emptyIdentity sampleToken none Caller.createCaller
      sampleNumericEmailEnv = (emptyIdentity, some HSDPError.missingEmailClaim) :=
  c10_nonstring_email_claim_treated_as_absent sampleConn emptyIdentity sampleToken
    none Caller.createCaller sampleNumericEmailEnv [("email", JSONValue.num 42)]
    sampleIntrospect (JSONValue.num 42) rfl rfl (by decide) (by decide)
    (fun t h => JSONValue.noConfusion h) (by decide)

end HSDP
